import Mathlib

/-!
Verification of the frame relay pipeline of an ndi-wayland-screenshare
program.  The definitions below are a shallow embedding of the two source
files: the pipewire capture side (the param-changed and process callbacks
of pipewire_loop), the sender side (ndi_loop), and the startup and join
logic of main.  Time is modelled as a natural-number monotonic clock in
milliseconds; pixel bytes are lists of naturals.
-/

namespace NWS

/-- Pixel formats on the pipewire side, as used by the program: the four
formats advertised in the EnumFormat pod of pipewire_loop plus the value a
default VideoInfoRaw starts with before any format negotiation. -/
inductive SpaVideoFormat
| Unknown
| BGRA
| RGBA
| RGBx
| BGRx
deriving DecidableEq

/-- Width and height pair, mirroring spa Rectangle. -/
structure Rectangle where
  width : Nat
  height : Nat
deriving DecidableEq

/-- Frame rate as numerator and denominator, mirroring spa Fraction. -/
structure Fraction where
  num : Nat
  denom : Nat
deriving DecidableEq

/-- The fields of spa VideoInfoRaw that the program reads: pixel format,
size and framerate. -/
structure VideoInfoRaw where
  format : SpaVideoFormat
  size : Rectangle
  framerate : Fraction
deriving DecidableEq

/-- Value of VideoInfoRaw produced by Default::default() in pipewire_loop:
everything zeroed, format unknown. -/
def defaultVideoInfo : VideoInfoRaw :=
  { format := SpaVideoFormat.Unknown,
    size := { width := 0, height := 0 },
    framerate := { num := 0, denom := 0 } }

/-- The OwnedFrame struct of main.rs: the geometry snapshot taken at
capture time, the capture instant, and the copied pixel bytes. -/
structure OwnedFrame where
  format : VideoInfoRaw
  create_time : Nat
  data : List Nat
deriving DecidableEq

/-- The VideoFormat enum of the ndi crate (lib.rs lines 114 to 120). -/
inductive VideoFormat
| RGBA
| RGBX
| BGRA
| BGRX
deriving DecidableEq

/-- The network frame descriptor, mirroring the Frame struct of the ndi
crate: width, height, pixel format, pixel data and stride in bytes. -/
structure NdiFrame where
  width : Nat
  height : Nat
  format : VideoFormat
  data : List Nat
  stride_in_bytes : Nat
deriving DecidableEq

/-- The descriptor ndi_loop builds at main.rs lines 35 to 41 for a frame
it forwards: width and height from the snapshotted geometry, the format
field hardcoded to BGRX, data moved from the frame, stride computed as
width times 4. -/
def sentFrame (f : OwnedFrame) : NdiFrame :=
  { width := f.format.size.width,
    height := f.format.size.height,
    format := VideoFormat.BGRX,
    data := f.data,
    stride_in_bytes := f.format.size.width * 4 }

/-- The staleness test of main.rs line 30 on one received entry: the
elapsed time since capture, measured at the instant the loop examines the
frame, exceeds 100 milliseconds. -/
def stale (p : Nat × OwnedFrame) : Bool :=
  decide (p.1 - p.2.create_time > 100)

/-- Result of a blocking receive on a channel whose producer side is gone,
as reported by the crossbeam receiver. -/
inductive RecvError
| disconnected
deriving DecidableEq

/-- The sender loop of main.rs lines 27 to 42, run over the whole FIFO
content of the relay channel: each list entry is one successful receive,
paired with the monotonic instant at which the loop examines it.  A frame
whose age exceeds 100 milliseconds is skipped, any other frame is sent.
When the list is exhausted the next receive reports disconnection, and
the question-mark operator on recv propagates it out of the function, so
the second component is the result ndi_loop returns. -/
def ndi_loop : List (Nat × OwnedFrame) → List NdiFrame × Except RecvError Unit
| [] => ([], Except.error RecvError.disconnected)
| (now, f) :: rest =>
    if now - f.create_time > 100 then ndi_loop rest
    else (sentFrame f :: (ndi_loop rest).1, (ndi_loop rest).2)

/-- Media types distinguished by parse_format, of which the program only
compares against Video. -/
inductive MediaType
| Video
| Audio
| Binary
deriving DecidableEq

/-- Media subtypes distinguished by parse_format, of which the program
only compares against Raw. -/
inductive MediaSubtype
| Raw
| Dsp
deriving DecidableEq

/-- Which parameter id the param-changed callback received: the Format
parameter or any other id. -/
inductive ParamKind
| Format
| Other
deriving DecidableEq

/-- A callback pod payload, described by what the two parsers the program
applies to it would yield: parse_format either fails or yields a media
type and subtype pair, and VideoInfoRaw parse either fails or yields the
negotiated geometry. -/
structure SpaPod where
  parse_format : Option (MediaType × MediaSubtype)
  parse_video_info : Option VideoInfoRaw
deriving DecidableEq

/-- Fatal error of the capture adapter: the expect call at main.rs line 92
aborting when a confirmed video raw pod cannot be parsed into
VideoInfoRaw. -/
inductive CaptureError
| parseVideoInfoFailed
deriving DecidableEq

/-- The param-changed callback of pipewire_loop (main.rs lines 69 to 112),
as a function from the current geometry and the received parameter to
either the geometry afterwards or a fatal error.  A missing pod, a non
Format id, an unparseable format header, or a media type other than video
raw all leave the geometry unchanged; a confirmed video raw pod either
overwrites the geometry or, when VideoInfoRaw parse fails, hits the
expect and aborts. -/
def param_changed (current : VideoInfoRaw) (id : ParamKind) (param : Option SpaPod) :
    Except CaptureError VideoInfoRaw :=
  match param with
  | none => Except.ok current
  | some p =>
      if id ≠ ParamKind.Format then Except.ok current
      else
        match p.parse_format with
        | none => Except.ok current
        | some (mt, mst) =>
            if mt ≠ MediaType.Video ∨ mst ≠ MediaSubtype.Raw then Except.ok current
            else
              match p.parse_video_info with
              | none => Except.error CaptureError.parseVideoInfoFailed
              | some info => Except.ok info

/-- One data region of a dequeued pipewire buffer: its chunk either maps
to pixel bytes or carries no payload. -/
structure DataRegion where
  data : Option (List Nat)
deriving DecidableEq

/-- A dequeued pipewire buffer: a list of data regions. -/
structure PwBuffer where
  datas : List DataRegion
deriving DecidableEq

/-- Observable effect of one invocation of the process callback:
which OwnedFrame was handed to the channel send, whether the channel
accepted it, what was printed, and whether the callback escalated in a
way that stops the capture loop. -/
structure ProcessEffect where
  enqueued : Option OwnedFrame
  delivered : Bool
  logs : List String
  fatal : Bool
deriving DecidableEq

/-- The process callback of pipewire_loop (main.rs lines 113 to 138).
Arguments: the current geometry held in user data, the monotonic instant
of the call, the result of dequeue_buffer, and whether the channel send
would succeed (false once the consumer is gone).  No buffer prints a
message and does nothing; a buffer with no data regions, or whose first
region has no payload, returns silently; otherwise an OwnedFrame
stamped with the current geometry and instant is built and handed to
send, whose result is discarded by the ok call. -/
def process (fmt : VideoInfoRaw) (now : Nat) (deq : Option PwBuffer) (chanOk : Bool) :
    ProcessEffect :=
  match deq with
  | none => { enqueued := none, delivered := false, logs := ["out of buffers"], fatal := false }
  | some buffer =>
      match buffer.datas with
      | [] => { enqueued := none, delivered := false, logs := [], fatal := false }
      | d0 :: _ =>
          match d0.data with
          | none => { enqueued := none, delivered := false, logs := [], fatal := false }
          | some bytes =>
              { enqueued := some { format := fmt, create_time := now, data := bytes },
                delivered := chanOk,
                logs := [],
                fatal := false }

/-- One event driven by the pipewire transport loop: a param-changed
callback or a process (frame delivery) callback. -/
inductive CaptureEvent
| formatChanged (id : ParamKind) (param : Option SpaPod)
| deliver (now : Nat) (deq : Option PwBuffer)

/-- The capture adapter run over a sequence of transport events, starting
from a current geometry: format changes update the geometry through
param_changed (a fatal parse error aborts the run), deliveries append the
frame the process callback enqueues, stamped with the geometry current at
that moment.  Returns the final geometry and all enqueued frames in
order. -/
def captureRun (fmt : VideoInfoRaw) :
    List CaptureEvent → Except CaptureError (VideoInfoRaw × List OwnedFrame)
| [] => Except.ok (fmt, [])
| CaptureEvent.formatChanged id p :: rest =>
    match param_changed fmt id p with
    | Except.error e => Except.error e
    | Except.ok fmt2 => captureRun fmt2 rest
| CaptureEvent.deliver now deq :: rest =>
    match (process fmt now deq true).enqueued with
    | none => captureRun fmt rest
    | some f =>
        match captureRun fmt rest with
        | Except.error e => Except.error e
        | Except.ok (fmt2, fs) => Except.ok (fmt2, f :: fs)

/-- What one worker thread closure of main (main.rs lines 242 to 251)
prints: a failing loop result is reported on stderr, a clean result
prints nothing.  The closure itself always returns unit, so the
subsequent join never sees a failure. -/
def worker_log (res : Except String Unit) : List String :=
  match res with
  | Except.error e => ["Error: " ++ e]
  | Except.ok _ => []

/-- The join stage of main (main.rs lines 242 to 256) as a function of
the two worker loop results: both threads are joined, each logs its own
error independently, and main then returns Ok regardless of either
result.  First component is the value main returns, second the collected
stderr output. -/
def main_join (pwRes ndiRes : Except String Unit) : Except String Unit × List String :=
  (Except.ok (), worker_log pwRes ++ worker_log ndiRes)

/-- Whether the capture loop ever terminates once the consumer side of
the channel is gone, over the deliveries the transport keeps driving
(each given by the geometry current at the callback, the instant, and
the dequeue result).  The call main_loop.run at main.rs line 212 returns
only when the loop is stopped and no callback stops it, so the loop
could end only by a delivery callback under a failed send escalating
fatally. -/
def pw_terminates_after_consumer_gone
    (deliveries : List (VideoInfoRaw × Nat × Option PwBuffer)) : Bool :=
  deliveries.any (fun d => (process d.1 d.2.1 d.2.2 false).fatal)

/-- The join stage of main (main.rs lines 253 to 254) with the blocking
nature of join made explicit: main reaches its return value only when
both worker loops terminate, and joining a worker that never terminates
blocks main forever, modelled as none. -/
def main_join_blocking (ndiEnds pwEnds : Bool) (pwRes ndiRes : Except String Unit) :
    Option (Except String Unit × List String) :=
  if ndiEnds && pwEnds then some (main_join pwRes ndiRes) else none

/-- Cursor modes of the screencast portal request. -/
inductive CursorMode
| Hidden
| Embedded
| Metadata
deriving DecidableEq

/-- Source types of the screencast portal request. -/
inductive SourceType
| Monitor
| Window
| Virtual
deriving DecidableEq

/-- Persist modes of the screencast portal request; DoNot means no
persistence. -/
inductive PersistMode
| DoNot
| Application
| ExplicitlyRevoked
deriving DecidableEq

/-- The argument record of a select_sources call on the screencast
portal. -/
structure SelectSourcesArgs where
  cursor_mode : CursorMode
  types : List SourceType
  multiple : Bool
  restore_token : Option String
  persist_mode : PersistMode
deriving DecidableEq

/-- The arguments main passes to select_sources at main.rs lines 221 to
230: embedded cursor, monitor and window sources, multiple set to true,
no restore token, no persistence. -/
def select_sources_call : SelectSourcesArgs :=
  { cursor_mode := CursorMode.Embedded,
    types := [SourceType.Monitor, SourceType.Window],
    multiple := true,
    restore_token := none,
    persist_mode := PersistMode.DoNot }

/-- A stream entry of the portal start response; the program only reads
its pipewire node id. -/
structure PwStream where
  pipe_wire_node_id : Nat
deriving DecidableEq

/-- The stream selection of main at main.rs line 236: iter next on the
response stream list takes the head and ignores the rest; the unwrap that
follows panics exactly when this yields none. -/
def pick_stream (streams : List PwStream) : Option PwStream :=
  streams.head?

/-- Modelled from the spec, section 4.3: the one-to-one pixel format map
the spec claims the sender loop applies (RGBA to RGBA, RGBX to RGBX, BGRA
to BGRA, BGRX to BGRX); undefined before negotiation. -/
def spec_format_map : SpaVideoFormat → Option VideoFormat
| SpaVideoFormat.RGBA => some VideoFormat.RGBA
| SpaVideoFormat.RGBx => some VideoFormat.RGBX
| SpaVideoFormat.BGRA => some VideoFormat.BGRA
| SpaVideoFormat.BGRx => some VideoFormat.BGRX
| SpaVideoFormat.Unknown => none

/-- Concrete frame whose negotiated pixel format is RGBA, used to compare
the built descriptor with the one-to-one map of the spec. -/
def cexFrame : OwnedFrame :=
  { format :=
      { format := SpaVideoFormat.RGBA,
        size := { width := 1920, height := 1080 },
        framerate := { num := 60, denom := 1 } },
    create_time := 0,
    data := [] }

/-- The frames ndi_loop forwards are exactly the fresh entries of the
channel content, in order, each mapped to its descriptor. -/
theorem ndi_loop_sends (xs : List (Nat × OwnedFrame)) :
    (ndi_loop xs).1 =
      (xs.filter (fun p => ! stale p)).map (fun p => sentFrame p.2) := by
  induction xs with
  | nil => rfl
  | cons p rest ih =>
      obtain ⟨now, f⟩ := p
      by_cases h : now - f.create_time > 100
      · have hs : stale (now, f) = true := decide_eq_true h
        simp [ndi_loop, h, List.filter_cons, hs, ih]
      · have hs : stale (now, f) = false := decide_eq_false h
        simp [ndi_loop, h, List.filter_cons, hs, ih]

/-- C2: every frame the sender loop examines whose age is at most 100
milliseconds is forwarded exactly once (the forwarded list is the ordered
filter of the fresh entries); the descriptor width and height come from
the snapshotted geometry of the frame; the frame a delivery enqueues is
stamped with the geometry current at its capture; and that frame heads
the output of any continuation of the capture run, so later format
changes do not alter it.  Frames older than 100 milliseconds never reach
the filter image and are never forwarded. -/
theorem c2_freshness_and_snapshot :
    (∀ xs : List (Nat × OwnedFrame),
        (ndi_loop xs).1 =
          (xs.filter (fun p => ! stale p)).map (fun p => sentFrame p.2))
    ∧ (∀ f : OwnedFrame,
        (sentFrame f).width = f.format.size.width ∧
          (sentFrame f).height = f.format.size.height)
    ∧ (∀ (fmt : VideoInfoRaw) (now : Nat) (deq : Option PwBuffer) (f : OwnedFrame),
        (process fmt now deq true).enqueued = some f → f.format = fmt)
    ∧ (∀ (fmt : VideoInfoRaw) (now : Nat) (deq : Option PwBuffer) (f : OwnedFrame)
        (rest : List CaptureEvent),
        (process fmt now deq true).enqueued = some f →
          captureRun fmt (CaptureEvent.deliver now deq :: rest) =
            Except.map (fun pr => (pr.1, f :: pr.2)) (captureRun fmt rest)) := by
  refine ⟨ndi_loop_sends, fun f => ⟨rfl, rfl⟩, ?_, ?_⟩
  · intro fmt now deq f h
    match deq with
    | none => simp [process] at h
    | some buffer =>
        match hb : buffer.datas with
        | [] => simp [process, hb] at h
        | d0 :: ds =>
            match hd : d0.data with
            | none => simp [process, hb, hd] at h
            | some bytes =>
                simp [process, hb, hd] at h
                rw [← h]
  · intro fmt now deq f rest h
    cases h2 : captureRun fmt rest with
    | error e => simp [captureRun, h, h2, Except.map]
    | ok pr => simp [captureRun, h, h2, Except.map]

/-- C2 witness: a delivery of a one-byte buffer under the default
geometry enqueues a frame stamped with exactly that geometry. -/
theorem c2_freshness_and_snapshot_witness :
    ({ format := defaultVideoInfo, create_time := 0, data := [5] } : OwnedFrame).format =
      defaultVideoInfo :=
  c2_freshness_and_snapshot.2.2.1 defaultVideoInfo 0
    (some { datas := [{ data := some [5] }] })
    { format := defaultVideoInfo, create_time := 0, data := [5] } rfl

/-- C8: the sender loop consumes the channel content in FIFO order: the
forwarded descriptors form an order-preserving sublist of the per-entry
descriptors (no reordering, no duplication), and the number of forwarded
frames plus the number of discarded stale frames equals the number of
received frames, so each received frame is consumed exactly once. -/
theorem c8_fifo_no_duplication :
    ∀ xs : List (Nat × OwnedFrame),
      List.Sublist (ndi_loop xs).1 (xs.map (fun p => sentFrame p.2))
      ∧ (ndi_loop xs).1.length + (xs.filter stale).length = xs.length := by
  intro xs
  constructor
  · rw [ndi_loop_sends]
    exact List.Sublist.map _ (List.filter_sublist xs)
  · induction xs with
    | nil => rfl
    | cons p rest ih =>
        obtain ⟨now, f⟩ := p
        by_cases h : now - f.create_time > 100
        · have hs : stale (now, f) = true := decide_eq_true h
          simp [ndi_loop, h, List.filter_cons, hs]
          omega
        · have hs : stale (now, f) = false := decide_eq_false h
          simp [ndi_loop, h, List.filter_cons, hs]
          omega

/-- C3 counterexample: when the channel reports disconnection (here
immediately, on an empty channel content), ndi_loop does not return
success: the recv error is propagated by the question-mark operator. -/
theorem c3_disconnect_not_success :
    (ndi_loop []).2 ≠ Except.ok () := by
  simp [ndi_loop]

/-- C3 amended: whatever the channel content, once the producer side is
gone the sender loop terminates by returning the propagated disconnection
error, never success. -/
theorem c3_disconnect_returns_error :
    ∀ xs : List (Nat × OwnedFrame),
      (ndi_loop xs).2 = Except.error RecvError.disconnected := by
  intro xs
  induction xs with
  | nil => rfl
  | cons p rest ih =>
      obtain ⟨now, f⟩ := p
      by_cases h : now - f.create_time > 100 <;> simp [ndi_loop, h, ih]

/-- C1 counterexample: for a frame negotiated as RGBA the one-to-one map
of the spec yields RGBA, but the descriptor ndi_loop builds carries BGRX,
so the descriptor format does not equal the mapped snapshot format. -/
theorem c1_format_not_mapped :
    spec_format_map cexFrame.format.format = some VideoFormat.RGBA
    ∧ (sentFrame cexFrame).format = VideoFormat.BGRX
    ∧ some (sentFrame cexFrame).format ≠ spec_format_map cexFrame.format.format := by
  refine ⟨rfl, rfl, by decide⟩

/-- C1 amended: the descriptor ndi_loop builds always carries pixel
format BGRX regardless of the snapshotted pixel format, while width and
height are taken from the snapshotted geometry and the stride is width
times 4 bytes. -/
theorem c1_descriptor_fields :
    ∀ f : OwnedFrame,
      (sentFrame f).format = VideoFormat.BGRX
      ∧ (sentFrame f).width = f.format.size.width
      ∧ (sentFrame f).height = f.format.size.height
      ∧ (sentFrame f).stride_in_bytes = f.format.size.width * 4 :=
  fun _ => ⟨rfl, rfl, rfl, rfl⟩

/-- The process callback never escalates: its fatal flag is false on
every path, whatever the dequeue result and the channel state. -/
theorem process_fatal (fmt : VideoInfoRaw) (now : Nat) (deq : Option PwBuffer)
    (chanOk : Bool) : (process fmt now deq chanOk).fatal = false := by
  match deq with
  | none => rfl
  | some buffer =>
      match hb : buffer.datas with
      | [] => simp [process, hb]
      | d0 :: ds =>
          match hd : d0.data with
          | none => simp [process, hb, hd]
          | some bytes => simp [process, hb, hd]

/-- C4 counterexample: two conjuncts of the claim fail on concrete
inputs.  First, a run in which the pipewire worker fails yields the same
Ok value from main as a fully successful run, so the process exit status
does not distinguish a worker failure from success.  Second, termination
of the ndi side does not end the process: with the consumer gone the
capture loop does not terminate on a concrete delivery of a valid
buffer, so the join on the pipewire thread blocks main forever. -/
theorem c4_exit_status_ignores_worker_failure :
    ((main_join (Except.error "connect failed") (Except.ok ())).1 = Except.ok ()
      ∧ (main_join (Except.ok ()) (Except.ok ())).1 = Except.ok ())
    ∧ pw_terminates_after_consumer_gone
        [(defaultVideoInfo, 0, some { datas := [{ data := some [1] }] })] = false
    ∧ main_join_blocking true false (Except.ok ()) (Except.ok ()) = none :=
  ⟨⟨rfl, rfl⟩, rfl, rfl⟩

/-- C4 amended: main joins both worker threads and each side logs its
own error to stderr so neither failure hides the other, but main then
returns Ok regardless of the worker results, so worker failures are not
reflected in the process exit status (only startup failures, which
abort main before the join stage, are); and termination of the ndi side
does not end the process: once the consumer is gone the capture loop
never terminates, whatever deliveries the transport drives, so the
blocking join on the pipewire thread never completes; main reaches its
return value only when both worker loops terminate. -/
theorem c4_join_logs_both :
    (∀ pwRes ndiRes : Except String Unit,
        (main_join pwRes ndiRes).1 = Except.ok ()
        ∧ (∀ e : String, pwRes = Except.error e →
            ("Error: " ++ e) ∈ (main_join pwRes ndiRes).2)
        ∧ (∀ e : String, ndiRes = Except.error e →
            ("Error: " ++ e) ∈ (main_join pwRes ndiRes).2))
    ∧ (∀ deliveries : List (VideoInfoRaw × Nat × Option PwBuffer),
        pw_terminates_after_consumer_gone deliveries = false)
    ∧ (∀ pwRes ndiRes : Except String Unit,
        main_join_blocking true false pwRes ndiRes = none)
    ∧ (∀ pwRes ndiRes : Except String Unit,
        main_join_blocking true true pwRes ndiRes = some (main_join pwRes ndiRes)) := by
  refine ⟨?_, ?_, fun _ _ => rfl, fun _ _ => rfl⟩
  · intro pwRes ndiRes
    refine ⟨rfl, ?_, ?_⟩
    · intro e he
      subst he
      simp [main_join, worker_log]
    · intro e he
      subst he
      cases pwRes <;> simp [main_join, worker_log]
  · intro deliveries
    rw [pw_terminates_after_consumer_gone, List.any_eq_false]
    intro d hd
    simp [process_fatal]

/-- C4 witness: with a failing pipewire worker and a clean ndi worker,
the failing side is present in the collected stderr output. -/
theorem c4_join_logs_both_witness :
    ("Error: " ++ "pw down") ∈ (main_join (Except.error "pw down") (Except.ok ())).2 :=
  (c4_join_logs_both.1 (Except.error "pw down") (Except.ok ())).2.1 "pw down" rfl

/-- C5 counterexample: the multiple flag of the select_sources call made
by main is true, not false as claimed. -/
theorem c5_multiple_is_true :
    select_sources_call.multiple = true ∧ select_sources_call.multiple ≠ false := by
  exact ⟨rfl, by decide⟩

/-- C5 amended: the one-shot authorization request is made with cursor
mode embedded, source types monitor and window, multiple set to true, no
restore token, and persistence none. -/
theorem c5_select_sources_params :
    select_sources_call =
      { cursor_mode := CursorMode.Embedded,
        types := [SourceType.Monitor, SourceType.Window],
        multiple := true,
        restore_token := none,
        persist_mode := PersistMode.DoNot } :=
  rfl

/-- C6 counterexample: a delivery of a valid one-byte buffer when the
channel consumer is gone produces no log output and does not end the
capture loop: the send failure is neither surfaced nor terminal, because
the ok call discards the send result. -/
theorem c6_send_failure_silent :
    (process defaultVideoInfo 0 (some { datas := [{ data := some [1] }] }) false).logs = []
    ∧ (process defaultVideoInfo 0 (some { datas := [{ data := some [1] }] }) false).fatal
        = false :=
  ⟨rfl, rfl⟩

/-- C6 amended: a forwarding failure is non-fatal and silently ignored:
the process callback never escalates, and its log output and the frame
it builds are independent of whether the channel send succeeds, so
repeated failures never surface and never end the capture loop. -/
theorem c6_send_failure_ignored :
    ∀ (fmt : VideoInfoRaw) (now : Nat) (deq : Option PwBuffer) (chanOk : Bool),
      (process fmt now deq chanOk).fatal = false
      ∧ (process fmt now deq chanOk).logs = (process fmt now deq true).logs
      ∧ (process fmt now deq chanOk).enqueued = (process fmt now deq true).enqueued := by
  intro fmt now deq chanOk
  match deq with
  | none => exact ⟨rfl, rfl, rfl⟩
  | some buffer =>
      match hb : buffer.datas with
      | [] => simp [process, hb]
      | d0 :: ds =>
          match hd : d0.data with
          | none => simp [process, hb, hd]
          | some bytes => simp [process, hb, hd]

/-- C7: the param-changed callback leaves the geometry unchanged for
every pod whose parsed media type and subtype are not video raw,
whatever the parameter id; and once a pod is confirmed video raw but
VideoInfoRaw parsing fails, the callback aborts with the fatal capture
error instead of continuing. -/
theorem c7_format_callback :
    (∀ (current : VideoInfoRaw) (id : ParamKind) (pod : SpaPod)
        (mt : MediaType) (mst : MediaSubtype),
        pod.parse_format = some (mt, mst) →
        ¬ (mt = MediaType.Video ∧ mst = MediaSubtype.Raw) →
        param_changed current id (some pod) = Except.ok current)
    ∧ (∀ current : VideoInfoRaw,
        param_changed current ParamKind.Format
            (some { parse_format := some (MediaType.Video, MediaSubtype.Raw),
                    parse_video_info := none })
          = Except.error CaptureError.parseVideoInfoFailed) := by
  constructor
  · intro current id pod mt mst hp hne
    cases id with
    | Other => simp [param_changed]
    | Format =>
        have hor : mt ≠ MediaType.Video ∨ mst ≠ MediaSubtype.Raw := by
          by_cases hmt : mt = MediaType.Video
          · right
            intro hmst
            exact hne ⟨hmt, hmst⟩
          · left
            exact hmt
        simp [param_changed, hp, hor]
  · intro current
    rfl

/-- C7 witness: an audio raw pod on the format parameter id leaves the
default geometry unchanged. -/
theorem c7_format_callback_witness :
    param_changed defaultVideoInfo ParamKind.Format
        (some { parse_format := some (MediaType.Audio, MediaSubtype.Raw),
                parse_video_info := none })
      = Except.ok defaultVideoInfo :=
  c7_format_callback.1 defaultVideoInfo ParamKind.Format
    { parse_format := some (MediaType.Audio, MediaSubtype.Raw), parse_video_info := none }
    MediaType.Audio MediaSubtype.Raw rfl (by decide)

/-- C9: when dequeue yields no buffer the callback only prints a message
and enqueues nothing without escalating; when the buffer has zero data
regions, or its first region carries no payload, the callback returns
silently with no frame built, nothing enqueued and no escalation, the
region indexing being guarded by the emptiness check. -/
theorem c9_delivery_guards :
    ∀ (fmt : VideoInfoRaw) (now : Nat) (chanOk : Bool),
      process fmt now none chanOk
          = { enqueued := none, delivered := false,
              logs := ["out of buffers"], fatal := false }
      ∧ process fmt now (some { datas := [] }) chanOk
          = { enqueued := none, delivered := false, logs := [], fatal := false }
      ∧ (∀ rest : List DataRegion,
          process fmt now (some { datas := { data := none } :: rest }) chanOk
            = { enqueued := none, delivered := false, logs := [], fatal := false }) :=
  fun _ _ _ => ⟨rfl, rfl, fun _ => rfl⟩

/-- C10: startup takes the head of the response stream list, a choice
independent of any additional streams, which are ignored; on an empty
list the head is absent and the unwrap that follows panics rather than
returning an error result. -/
theorem c10_first_stream_only :
    (∀ (s : PwStream) (rest : List PwStream), pick_stream (s :: rest) = some s)
    ∧ pick_stream [] = none :=
  ⟨fun _ _ => rfl, rfl⟩

end NWS
